import Mathlib

/- Verification of the countdown GIF generator
   (src/countdown-generator/index.js).

   Shallow embedding conventions:
   - JS numbers that hold integral millisecond counts, pixel sizes and frame
     counts are modelled as Int (they can be negative in the source).
   - `Math.floor` applied to an exact division by a positive integer constant
     is integer floor division, which for a positive divisor agrees with
     Lean's `Int` division `/` (Euclidean division rounds toward negative
     infinity when the divisor is positive).
   - `Number.prototype.toString` on a non-negative integer produces the
     decimal representation, embedded as `Nat.repr`.
   - JS default parameters are modelled with `Option` arguments
     (`none` = argument omitted) resolved with `Option.getD`.
   - JS truthiness `a || b` on strings falls back exactly on the empty
     string; on optional numbers it falls back on `undefined` and on `0`.
   - The GIF encoder and canvas are external collaborators: a rendered
     frame is abstracted by the data painted onto it (the decomposed field
     set for a countdown frame, the message string for a passed frame), and
     the encoder by the list of frames added between start() and finish(). -/

namespace Countdown

/-- Days/hours/minutes/seconds extracted from a duration once per frame
(lines 181-184 of index.js). -/
structure FieldSet where
  days : Int
  hours : Int
  minutes : Int
  seconds : Int
deriving Repr, DecidableEq

/-- Embeds lines 181-184: `days = Math.floor(asDays())`,
`hours = Math.floor(asHours() - days*24)`,
`minutes = Math.floor(asMinutes()) - days*24*60 - hours*60`,
`seconds = Math.floor(asSeconds()) - days*24*60*60 - hours*60*60 - minutes*60`,
where a duration of `d` milliseconds has `asDays() = d/86400000`,
`asHours() = d/3600000`, `asMinutes() = d/60000`, `asSeconds() = d/1000`
as exact rationals.  Since `days * 24` is an integer,
`Math.floor(asHours() - days*24) = Math.floor(asHours()) - days*24`. -/
def decompose (d : Int) : FieldSet :=
  let days := d / 86400000
  let hours := d / 3600000 - days * 24
  let minutes := d / 60000 - days * 24 * 60 - hours * 60
  let seconds := d / 1000 - days * 24 * 60 * 60 - hours * 60 * 60 - minutes * 60
  ⟨days, hours, minutes, seconds⟩

/-- Embeds lines 188-191 for a non-negative field value:
`(v.toString().length == 1) ? '0' + v : v`. -/
def pad (n : Nat) : String :=
  if (Nat.repr n).length = 1 then "0" ++ Nat.repr n else Nat.repr n

/-- Embeds clamp (lines 75-77): `Math.max(min, Math.min(number, max))`. -/
def clamp (number lo hi : Int) : Int :=
  max lo (min number hi)

/-- Per-session configuration stored on `this` by init (lines 23-33). -/
structure Config where
  width : Int
  height : Int
  frames : Int
  bg : String
  textColor : String
  name : String
  timezone : String
  datepassedtext : String
deriving Repr, DecidableEq

/-- Embeds init (lines 23-33).  Option arguments model the JS default
parameters `width = 640, height = 80, color = 'ffe600', bg = '000000',
name = 'default', frames = 30, timezone = 'uk',
datepassedtext = 'Date has passed!'`; the stored width, height and frame
count are clamped. -/
def init (width height : Option Int) (color bg name : Option String)
    (frames : Option Int) (timezone datepassedtext : Option String) : Config :=
  { width := clamp (width.getD 640) 150 1000
    height := clamp (height.getD 80) 150 500
    frames := clamp (frames.getD 30) 1 90
    bg := "#" ++ bg.getD "000000"
    textColor := "#" ++ color.getD "ffe600"
    name := name.getD "default"
    timezone := timezone.getD "uk"
    datepassedtext := datepassedtext.getD "Date has passed!" }

/-- Result of the time function (lines 83-114): either the date-passed
string or a duration object holding the millisecond difference. -/
inductive TimeResult
  | passed (msg : String)
  | remaining (duration : Int)
deriving Repr, DecidableEq

/-- Embeds the zone selection of time (lines 86-98): both `target` and
`current` start as Europe/London and are reassigned together by the
if/else-if chain on `this.timezone`.  Returns the pair
(zone used for target, zone used for current). -/
def resolveZone (timezone : String) : String × String :=
  let target := "Europe/London"
  let current := "Europe/London"
  if timezone = "nl" then ("Europe/Amsterdam", "Europe/Amsterdam")
  else if timezone = "ru" then ("Europe/Moscow", "Europe/Moscow")
  else if timezone = "uk" then ("Europe/London", "Europe/London")
  else (target, current)

/-- Embeds the branch of time at lines 108-113: the millisecond
`difference` between the resolved target and current instants is a
parameter (instant resolution itself happens inside moment-timezone, an
external collaborator).  `this.datepassedtext || 'Date has passed!'`
falls back to the literal exactly when the stored string is empty. -/
def time (difference : Int) (datepassedtext : String) : TimeResult :=
  if difference ≤ 0 then
    TimeResult.passed
      (if datepassedtext = "" then "Date has passed!" else datepassedtext)
  else
    TimeResult.remaining difference

/-- Output of one drawLine call: the stroked segment and its style. -/
structure Line where
  x1 : Int
  y1 : Int
  x2 : Int
  y2 : Int
  strokeStyle : String
  lineWidth : Int
deriving Repr, DecidableEq

/-- Embeds JS `y || fallback` for an optional number: `undefined` (none)
and `0` are falsy. -/
def jsOr (y : Option Int) (fallback : Int) : Int :=
  match y with
  | none => fallback
  | some v => if v = 0 then fallback else v

/-- Embeds drawLine (lines 118-126): `moveTo(x, y || 15)`,
`lineTo(x, y || 130)`, `lineWidth = 2`, `strokeStyle = '#ffe600'`.
The config parameter stands for `this`; drawLine reads none of its
fields. -/
def drawLine (_config : Config) (x : Int) (y : Option Int) : Line :=
  { x1 := x
    y1 := jsOr y 15
    x2 := x
    y2 := jsOr y 130
    strokeStyle := "#ffe600"
    lineWidth := 2 }

/-- One frame added to the GIF encoder: a countdown frame is determined by
the decomposed field set painted onto it, a passed frame by the message
string. -/
inductive Frame
  | countdown (fields : FieldSet)
  | message (msg : String)
deriving Repr, DecidableEq

/-- Embeds the for-loop of encode (lines 179-249): each iteration
decomposes the current duration, adds one frame to the encoder, and only
then subtracts one second (1000 ms) for the next iteration. -/
def encodeLoop (duration : Int) : Nat → List Frame
  | 0 => []
  | n + 1 => Frame.countdown (decompose duration) :: encodeLoop (duration - 1000) n

/-- Embeds encode (lines 172-264) as the sequence of frames added between
`enc.start()` and `enc.finish()`: if the time result is a duration object
the loop runs `this.frames` times (a JS for-loop runs `max(frames, 0)`
iterations, hence `Int.toNat`); otherwise exactly one message frame is
added. -/
def encode (timeResult : TimeResult) (frames : Int) : List Frame :=
  match timeResult with
  | TimeResult.remaining d => encodeLoop d frames.toNat
  | TimeResult.passed msg => [Frame.message msg]

/-- Embeds `timeResult.subtract(1, 'seconds')` (line 248) applied n
times: moment mutates the duration by exact integer subtraction of
1000 ms per call. -/
def subtractSeconds (duration : Int) : Nat → Int
  | 0 => duration
  | n + 1 => subtractSeconds (duration - 1000) n

theorem toDigitsCore_length_mono (b fuel n : Nat) (ds : List Char) :
    ds.length ≤ (Nat.toDigitsCore b fuel n ds).length := by
  induction fuel generalizing n ds with
  | zero => simp [Nat.toDigitsCore]
  | succ f ih =>
    unfold Nat.toDigitsCore
    dsimp only
    split
    · simp
    · have := ih (n / b) (Nat.digitChar (n % b) :: ds)
      simp at this
      omega

theorem toDigitsCore_length_succ (b fuel n : Nat) (ds : List Char)
    (h : 1 ≤ fuel) : ds.length + 1 ≤ (Nat.toDigitsCore b fuel n ds).length := by
  cases fuel with
  | zero => omega
  | succ f =>
    unfold Nat.toDigitsCore
    dsimp only
    split
    · simp
    · have := toDigitsCore_length_mono b f (n / b) (Nat.digitChar (n % b) :: ds)
      simp at this
      omega

theorem repr_length_pos (n : Nat) : 1 ≤ (Nat.repr n).length := by
  have h : Nat.repr n = (Nat.toDigits 10 n).asString := rfl
  have h2 : (Nat.toDigits 10 n).asString.length = (Nat.toDigits 10 n).length := rfl
  rw [h, h2]
  have := toDigitsCore_length_succ 10 (n + 1) n [] (by omega)
  simpa [Nat.toDigits] using this

theorem subtractSeconds_eq (n : Nat) (d : Int) :
    subtractSeconds d n = d - 1000 * n := by
  induction n generalizing d with
  | zero => simp [subtractSeconds]
  | succ k ih =>
    rw [subtractSeconds, ih]
    push_cast
    omega

theorem encodeLoop_length (n : Nat) (d : Int) :
    (encodeLoop d n).length = n := by
  induction n generalizing d with
  | zero => rfl
  | succ k ih => simp [encodeLoop, ih]

theorem encodeLoop_get (n : Nat) (d : Int) (i : Nat) (h : i < n) :
    (encodeLoop d n)[i]? = some (Frame.countdown (decompose (d - 1000 * i))) := by
  induction n generalizing d i with
  | zero => omega
  | succ k ih =>
    cases i with
    | zero => simp [encodeLoop]
    | succ j =>
      have hj : j < k := by omega
      have harith : d - 1000 - 1000 * (j : Int) = d - 1000 * ((j + 1 : Nat) : Int) := by
        push_cast
        omega
      rw [encodeLoop, List.getElem?_cons_succ, ih (d - 1000) j hj, harith]

/-- C1: for every non-negative duration D in milliseconds, the
per-frame decomposition satisfies
days*86400 + hours*3600 + minutes*60 + seconds = floor(D/1000), with
hours in [0,23] and minutes, seconds in [0,59]. -/
theorem decompose_correct (d : Int) (_h : 0 ≤ d) :
    (decompose d).days * 86400 + (decompose d).hours * 3600
        + (decompose d).minutes * 60 + (decompose d).seconds = d / 1000
    ∧ 0 ≤ (decompose d).hours ∧ (decompose d).hours ≤ 23
    ∧ 0 ≤ (decompose d).minutes ∧ (decompose d).minutes ≤ 59
    ∧ 0 ≤ (decompose d).seconds ∧ (decompose d).seconds ≤ 59 := by
  simp only [decompose]
  omega

/-- Witness for C1 at D = 90061000 ms (1 day, 1 hour, 1 minute, 1 second). -/
theorem decompose_correct_witness :
    (0 : Int) ≤ 90061000
    ∧ ((decompose 90061000).days * 86400 + (decompose 90061000).hours * 3600
        + (decompose 90061000).minutes * 60 + (decompose 90061000).seconds
          = (90061000 : Int) / 1000
      ∧ 0 ≤ (decompose 90061000).hours ∧ (decompose 90061000).hours ≤ 23
      ∧ 0 ≤ (decompose 90061000).minutes ∧ (decompose 90061000).minutes ≤ 59
      ∧ 0 ≤ (decompose 90061000).seconds ∧ (decompose 90061000).seconds ≤ 59) :=
  ⟨by decide, decompose_correct 90061000 (by decide)⟩

/-- C2: every padded field string has length at least 2; a value whose
decimal form already has two or more digits is rendered unchanged
(no truncation); 5 renders as "05" and 125 as "125". -/
theorem pad_spec :
    (∀ n : Nat, 2 ≤ (pad n).length
      ∧ (2 ≤ (Nat.repr n).length → pad n = Nat.repr n))
    ∧ pad 5 = "05" ∧ pad 125 = "125" := by
  refine ⟨fun n => ⟨?_, ?_⟩, by decide, by decide⟩
  · unfold pad
    split
    · rename_i h1
      rw [String.length_append, h1]
      decide
    · have := repr_length_pos n
      omega
  · intro h2
    unfold pad
    split
    · omega
    · rfl

/-- Witness for C2 at the three-digit value 125. -/
theorem pad_spec_witness :
    2 ≤ (Nat.repr 125).length ∧ pad 125 = Nat.repr 125 :=
  ⟨by decide, (pad_spec.1 125).2 (by decide)⟩

/-- C3: when the time result is a duration (Remaining), exactly the
clamped frame count of frames is added to the encoder, frame 0 decomposes
the undecremented duration, and frame i decomposes exactly d - 1000*i ms,
so consecutive frames are exactly one second apart. -/
theorem encode_remaining_frames (d frames : Int) :
    (encode (TimeResult.remaining d) (clamp frames 1 90)).length
        = (clamp frames 1 90).toNat
    ∧ (encode (TimeResult.remaining d) (clamp frames 1 90))[0]?
        = some (Frame.countdown (decompose d))
    ∧ ∀ i : Nat, i < (clamp frames 1 90).toNat →
        (encode (TimeResult.remaining d) (clamp frames 1 90))[i]?
          = some (Frame.countdown (decompose (d - 1000 * i))) := by
  have hpos : 1 ≤ (clamp frames 1 90).toNat := by
    simp only [clamp]
    omega
  refine ⟨?_, ?_, ?_⟩
  · simp [encode, encodeLoop_length]
  · have := encodeLoop_get (clamp frames 1 90).toNat d 0 (by omega)
    simpa [encode] using this
  · intro i hi
    simpa [encode] using encodeLoop_get (clamp frames 1 90).toNat d i hi

/-- Witness for C3 at d = 5000 ms, frames = 3, frame index 2. -/
theorem encode_remaining_frames_witness :
    2 < ((clamp 3 1 90).toNat : Nat)
    ∧ (encode (TimeResult.remaining 5000) (clamp 3 1 90))[2]?
        = some (Frame.countdown (decompose (5000 - 1000 * 2))) :=
  ⟨by decide, (encode_remaining_frames 5000 3).2.2 2 (by decide)⟩

/-- C4: when the time result is the passed string, exactly one message
frame is added to the encoder before finish, whatever the frame count. -/
theorem encode_passed_single (msg : String) (frames : Int) :
    encode (TimeResult.passed msg) frames = [Frame.message msg]
    ∧ (encode (TimeResult.passed msg) frames).length = 1 :=
  ⟨rfl, rfl⟩

/-- C5 counterexample: with an explicitly supplied empty passed-message,
the Passed variant carries the default literal instead of the supplied
string, so the default is not used only when no message was supplied. -/
theorem time_empty_message_counterexample :
    (init none none none none none none none (some "")).datepassedtext = ""
    ∧ time (-1)
        (init none none none none none none none (some "")).datepassedtext
        = TimeResult.passed "Date has passed!"
    ∧ TimeResult.passed "Date has passed!" ≠ TimeResult.passed "" := by
  refine ⟨rfl, ?_, by decide⟩
  decide

/-- C5 amended: the time computation returns Passed iff the millisecond
difference is ≤ 0; the carried message is the caller-supplied one when it
is non-empty, and the default literal "Date has passed!" when the caller
supplied none or supplied an empty (falsy) string; when the difference is
positive it returns Remaining holding the difference. -/
theorem time_spec (difference : Int) (dpt : Option String) :
    (difference ≤ 0 → ∀ m, dpt = some m → m ≠ "" →
        time difference
          (init none none none none none none none dpt).datepassedtext
          = TimeResult.passed m)
    ∧ (difference ≤ 0 → (dpt = none ∨ dpt = some "") →
        time difference
          (init none none none none none none none dpt).datepassedtext
          = TimeResult.passed "Date has passed!")
    ∧ (0 < difference →
        time difference
          (init none none none none none none none dpt).datepassedtext
          = TimeResult.remaining difference)
    ∧ (∀ m,
        time difference
          (init none none none none none none none dpt).datepassedtext
          = TimeResult.passed m → difference ≤ 0) := by
  refine ⟨?_, ?_, ?_, ?_⟩
  · intro hle m hm hne
    subst hm
    simp [time, init, hle, hne]
  · intro hle hcase
    rcases hcase with h | h <;> subst h <;> simp [time, init, hle]
  · intro hpos
    have : ¬ difference ≤ 0 := by omega
    simp [time, this]
  · intro m hm
    by_contra hpos
    simp [time, hpos] at hm

/-- Witness for C5 amended at difference = -1 with supplied message
"Gone!". -/
theorem time_spec_witness :
    ((-1 : Int) ≤ 0 ∧ (some "Gone!" : Option String) = some "Gone!"
      ∧ "Gone!" ≠ "")
    ∧ time (-1)
        (init none none none none none none none (some "Gone!")).datepassedtext
        = TimeResult.passed "Gone!" :=
  ⟨⟨by decide, rfl, by decide⟩,
    (time_spec (-1) (some "Gone!")).1 (by decide) "Gone!" rfl (by decide)⟩

/-- C6: init clamps width to [150,1000], height to [150,500] and frames
to [1,90] silently; width 50 gives 150, width 5000 gives 1000, frames 0
gives 1, frames 200 gives 90; and an omitted height defaults to 80, below
the clamp floor, so it always yields an effective height of 150. -/
theorem init_clamps (w h f : Int) :
    (150 ≤ (init (some w) (some h) none none none (some f) none none).width
      ∧ (init (some w) (some h) none none none (some f) none none).width ≤ 1000)
    ∧ (150 ≤ (init (some w) (some h) none none none (some f) none none).height
      ∧ (init (some w) (some h) none none none (some f) none none).height ≤ 500)
    ∧ (1 ≤ (init (some w) (some h) none none none (some f) none none).frames
      ∧ (init (some w) (some h) none none none (some f) none none).frames ≤ 90)
    ∧ (init (some 50) (some h) none none none (some f) none none).width = 150
    ∧ (init (some 5000) (some h) none none none (some f) none none).width = 1000
    ∧ (init (some w) (some h) none none none (some 0) none none).frames = 1
    ∧ (init (some w) (some h) none none none (some 200) none none).frames = 90
    ∧ (init (some w) none none none none (some f) none none).height = 150 := by
  simp only [init, clamp, Option.getD]
  refine ⟨⟨?_, ?_⟩, ⟨?_, ?_⟩, ⟨?_, ?_⟩, by decide, by decide, by decide,
    by decide, by decide⟩ <;> omega

/-- C7: target and current instants are always resolved in the same named
zone; "nl" maps to Europe/Amsterdam, "ru" to Europe/Moscow, "uk" to
Europe/London, and any unrecognized identifier also resolves to
Europe/London. -/
theorem resolveZone_spec (tz : String) :
    (resolveZone tz).1 = (resolveZone tz).2
    ∧ resolveZone "nl" = ("Europe/Amsterdam", "Europe/Amsterdam")
    ∧ resolveZone "ru" = ("Europe/Moscow", "Europe/Moscow")
    ∧ resolveZone "uk" = ("Europe/London", "Europe/London")
    ∧ (tz ≠ "nl" → tz ≠ "ru" → tz ≠ "uk" →
        resolveZone tz = ("Europe/London", "Europe/London")) := by
  refine ⟨?_, by decide, by decide, by decide, ?_⟩
  · unfold resolveZone
    split <;> [rfl; skip]
    split <;> [rfl; skip]
    split <;> rfl
  · intro h1 h2 h3
    simp [resolveZone, h1, h2, h3]

/-- Witness for C7 at the unrecognized identifier "xx". -/
theorem resolveZone_spec_witness :
    ("xx" ≠ "nl" ∧ "xx" ≠ "ru" ∧ "xx" ≠ "uk")
    ∧ resolveZone "xx" = ("Europe/London", "Europe/London") :=
  ⟨⟨by decide, by decide, by decide⟩,
    (resolveZone_spec "xx").2.2.2.2 (by decide) (by decide) (by decide)⟩

/-- C8: for a non-negative duration D and any n with D - n*1000 ≥ 0,
decomposing after n successive one-second decrements equals directly
decomposing D - n*1000 milliseconds: the decrement is exact integer
subtraction with no drift. -/
theorem subtractSeconds_decompose (d : Int) (n : Nat) (_hd : 0 ≤ d)
    (_hn : 0 ≤ d - 1000 * n) :
    decompose (subtractSeconds d n) = decompose (d - 1000 * n) := by
  rw [subtractSeconds_eq]

/-- Witness for C8 at D = 5000 ms, n = 3. -/
theorem subtractSeconds_decompose_witness :
    ((0 : Int) ≤ 5000 ∧ (0 : Int) ≤ 5000 - 1000 * (3 : Nat))
    ∧ decompose (subtractSeconds 5000 3) = decompose (5000 - 1000 * (3 : Nat)) :=
  ⟨⟨by decide, by decide⟩, subtractSeconds_decompose 5000 3 (by decide) (by decide)⟩

/-- C9: drawLine output is independent of the session configuration (text
color, background color, canvas height); its stroke color is always the
fixed '#ffe600', and with no y coordinate supplied the stroke spans from
y = 15 to y = 130. -/
theorem drawLine_spec (c c2 : Config) (x : Int) (y : Option Int) :
    drawLine c x y = drawLine c2 x y
    ∧ (drawLine c x y).strokeStyle = "#ffe600"
    ∧ (drawLine c x none).y1 = 15
    ∧ (drawLine c x none).y2 = 130 :=
  ⟨rfl, rfl, rfl, rfl⟩

/-- C10: every session adds at least one frame to the encoder: the frame
count is clamped to at least 1 so the countdown loop runs at least once,
and the passed branch adds exactly one frame. -/
theorem encode_nonempty (timeResult : TimeResult) (frames : Int) :
    1 ≤ (encode timeResult (clamp frames 1 90)).length := by
  cases timeResult with
  | passed msg => simp [encode]
  | remaining d =>
    simp only [encode, encodeLoop_length]
    simp only [clamp]
    omega

end Countdown
